import Mathlib

/-!
Shallow embedding of the OTP issuance / validation / password-reset subsystem
of the loan-application backend (auth routes and the mail transport adapter),
together with theorems settling the specification claims.

Conventions of the embedding:
* Timestamps are naturals (milliseconds since epoch); the JS comparison
  `new Date() > expiresAt` becomes `r.expiresAt < now`.
* JS truthiness on request-body strings (absent, or present-but-empty, both
  count as missing) is modelled by `truthy : Option String → Bool`.
* Mongo collections are Lean lists; `findOne` is `List.find?` (first match in
  natural order), `deleteMany` is `filter`, `deleteOne {_id}` is `eraseP` on
  the id, `doc.save()` replaces the record with the same id in place.
* Email delivery is external: route handlers take the boolean outcome of
  `sendOTPEmail` as a parameter `emailOk`; the adapter itself (config hash,
  transporter cache, address validation) is embedded separately below.
-/

/-- JS truthiness for an optional request-body string: absent or empty is falsy. -/
def truthy : Option String → Bool
  | none => false
  | some s => !(s == "")

/-- JS `s || d` for an optional string: the default when the value is falsy. -/
def orDefault (s : Option String) (d : String) : String :=
  if truthy s then s.getD d else d

/-- The embedded OTP slot stored on a user document (`user.otp`). -/
structure EmbeddedOTP where
  code : String
  expiresAt : Nat
  purpose : String
deriving Repr, DecidableEq

/-- A user document, restricted to the fields the OTP flows read or write. -/
structure UserRec where
  id : Nat
  email : String
  phone : String
  password : String
  otp : Option EmbeddedOTP
  isVerifiedEmail : Bool
  isVerifiedPhone : Bool
deriving Repr, DecidableEq

/-- A standalone OTP document in the temporary OTP collection. -/
structure OTPRecord where
  id : Nat
  email : Option String
  phone : Option String
  code : String
  purpose : String
  expiresAt : Nat
  verified : Bool
deriving Repr, DecidableEq

/-- The persistent state the handlers touch: both collections, plus a counter
supplying fresh `_id`s for inserted OTP documents. -/
structure DB where
  users : List UserRec
  otps : List OTPRecord
  nextId : Nat
deriving Repr, DecidableEq

/-- Ten minutes in milliseconds: the TTL added to issuance time in all flows. -/
def otpTtlMs : Nat := 10 * 60 * 1000

/-- The `findOne` query built from optional email and phone: each supplied
(truthy) field must equal the corresponding user field. -/
def userQuery (email phone : Option String) (u : UserRec) : Bool :=
  (if truthy email then email == some u.email else true) &&
  (if truthy phone then phone == some u.phone else true)

/-- `doc.save()` on a user: replace the record with the same id. -/
def saveUser (users : List UserRec) (u : UserRec) : List UserRec :=
  users.map (fun v => if v.id == u.id then u else v)

/-- `doc.save()` on a standalone OTP record: replace the record with the same id. -/
def saveOtp (otps : List OTPRecord) (r : OTPRecord) : List OTPRecord :=
  otps.map (fun x => if x.id == r.id then r else x)

/-- Result of POST /forgot-password. -/
inductive ForgotRes where
  | missingEmail
  | userNotFound
  | sendFailed
  | ok
deriving Repr, DecidableEq

/-- POST /forgot-password: require an existing user, overwrite the embedded
OTP slot with a `password_reset` code expiring in 10 minutes, then attempt
email delivery (its outcome is the parameter `emailOk`). The slot is saved
before the delivery attempt, so it persists even when delivery fails. -/
def forgotPassword (db : DB) (email : Option String) (now : Nat)
    (code : String) (emailOk : Bool) : ForgotRes × DB :=
  if !truthy email then (ForgotRes.missingEmail, db)
  else
    match db.users.find? (userQuery email none) with
    | none => (ForgotRes.userNotFound, db)
    | some u =>
      let u2 := { u with otp := some ⟨code, now + otpTtlMs, "password_reset"⟩ }
      let db2 := { db with users := saveUser db.users u2 }
      if !emailOk then (ForgotRes.sendFailed, db2)
      else (ForgotRes.ok, db2)

/-- Result of POST /reset-password. -/
inductive ResetRes where
  | missingFields
  | invalidOtpOrUser
  | invalidOtp
  | expired
  | ok
deriving Repr, DecidableEq

/-- POST /reset-password: look the user up by email; `Invalid OTP or user not
found` when absent or the slot is empty; `Invalid OTP` when the stored purpose
is not `password_reset` or the code differs (this check precedes the expiry
check, as in the source); `OTP has expired` when past `expiresAt`; otherwise
set the new password and clear the slot in one save. -/
def resetPassword (db : DB) (email otp newPassword : Option String)
    (now : Nat) : ResetRes × DB :=
  if !truthy email || !truthy otp || !truthy newPassword then
    (ResetRes.missingFields, db)
  else
    match db.users.find? (userQuery email none) with
    | none => (ResetRes.invalidOtpOrUser, db)
    | some u =>
      match u.otp with
      | none => (ResetRes.invalidOtpOrUser, db)
      | some o =>
        if o.purpose != "password_reset" || some o.code != otp then
          (ResetRes.invalidOtp, db)
        else if o.expiresAt < now then (ResetRes.expired, db)
        else
          let u2 := { u with password := newPassword.getD "", otp := none }
          (ResetRes.ok, { db with users := saveUser db.users u2 })

/-- Result of POST /send-otp. `sendFailed` carries the `devOtp` the response
would echo (present only in the application email branch, only outside
production); `ok` carries `otpExpiresIn` and the optional `devOtp`. -/
inductive SendOtpRes where
  | missingSubject
  | userNotFound
  | sendFailed (devOtp : Option String)
  | ok (otpExpiresIn : Nat) (devOtp : Option String)
deriving Repr, DecidableEq

/-- POST /send-otp. For `purpose = "application"`, delete every standalone
record for the supplied subject and purpose `application`, insert a fresh
record, and (email branch only) attempt delivery. For other purposes, resolve
the subject to a user (404 when absent unless `purpose = "login"`), overwrite
the user's embedded slot when a user was found, attempt delivery when an email
was supplied, and answer with `otpExpiresIn = 600`. -/
def sendOtp (db : DB) (email phone purpose : Option String) (now : Nat)
    (code : String) (isProd emailOk : Bool) : SendOtpRes × DB :=
  let expiresAt := now + otpTtlMs
  let devOtp : Option String := if isProd then none else some code
  if purpose == some "application" then
    if truthy email then
      let otps1 := db.otps.filter
        (fun r => !(r.email == email && r.purpose == "application"))
      let newRec : OTPRecord :=
        { id := db.nextId, email := email, phone := none, code := code,
          purpose := "application", expiresAt := expiresAt, verified := false }
      let db2 := { db with otps := otps1 ++ [newRec], nextId := db.nextId + 1 }
      if !emailOk then (SendOtpRes.sendFailed devOtp, db2)
      else (SendOtpRes.ok 600 devOtp, db2)
    else if truthy phone then
      let otps1 := db.otps.filter
        (fun r => !(r.phone == phone && r.purpose == "application"))
      let newRec : OTPRecord :=
        { id := db.nextId, email := none, phone := phone, code := code,
          purpose := "application", expiresAt := expiresAt, verified := false }
      (SendOtpRes.ok 600 devOtp,
        { db with otps := otps1 ++ [newRec], nextId := db.nextId + 1 })
    else (SendOtpRes.missingSubject, db)
  else
    let emailT := truthy email
    let phoneT := truthy phone
    let isLogin := purpose == some "login"
    let user1 : Option UserRec :=
      if emailT then db.users.find? (userQuery email none) else none
    if emailT && user1.isNone && !isLogin then (SendOtpRes.userNotFound, db)
    else
      let user2 : Option UserRec :=
        if phoneT && !emailT then db.users.find? (userQuery none phone)
        else user1
      if (phoneT && !emailT) && user2.isNone && !isLogin then
        (SendOtpRes.userNotFound, db)
      else
        let db2 :=
          match user2 with
          | some u =>
            let u2 := { u with
              otp := some ⟨code, expiresAt, orDefault purpose "verification"⟩ }
            { db with users := saveUser db.users u2 }
          | none => db
        if emailT && !emailOk then (SendOtpRes.sendFailed none, db2)
        else (SendOtpRes.ok 600 devOtp, db2)

/-- Result of POST /verify-otp. `okApp` echoes the supplied subject fields;
`okUser` carries the saved user document (verification flags updated, slot
cleared). -/
inductive VerifyRes where
  | missingFields
  | missingSubject
  | notFound
  | expired
  | mismatch
  | okApp (email phone : Option String)
  | okUser (u : UserRec)
deriving Repr, DecidableEq

/-- The successful user-based verification update: set the email-verified
flag when the supplied purpose is `email` (or `verification` with an email
supplied), set the phone-verified flag when it is `phone` (or `verification`
with a phone supplied), and clear the OTP slot. Only the supplied purpose is
consulted; the stored `user.otp.purpose` plays no role. -/
def verifiedUpdate (u : UserRec) (email phone purpose : Option String) : UserRec :=
  { u with
    isVerifiedEmail := u.isVerifiedEmail ||
      (purpose == some "email" || (purpose == some "verification" && truthy email)),
    isVerifiedPhone := u.isVerifiedPhone ||
      (purpose == some "phone" || (purpose == some "verification" && truthy phone)),
    otp := none }

/-- The query on the standalone collection used by the application flow of
POST /verify-otp: purpose `application`, unverified, and the supplied subject
(email when truthy, otherwise phone). -/
def otpAppQuery (email phone : Option String) (r : OTPRecord) : Bool :=
  r.purpose == "application" && r.verified == false &&
    (if truthy email then r.email == email
     else if truthy phone then r.phone == phone
     else false)

/-- POST /verify-otp. Application purpose: query the standalone collection
(existence, then expiry with lazy deletion of the expired record, then code
match, then mark `verified := true`). Any other purpose: look the user up by
the supplied subject fields, check slot existence, expiry, code match — the
supplied purpose is never compared with the stored one — then set the
per-channel verification flags chosen by the supplied purpose and clear the
slot in one save. -/
def verifyOtp (db : DB) (email phone otp purpose : Option String)
    (now : Nat) : VerifyRes × DB :=
  if !truthy otp || (!truthy email && !truthy phone) then
    (VerifyRes.missingFields, db)
  else if purpose == some "application" then
    if !truthy email && !truthy phone then (VerifyRes.missingSubject, db)
    else
      match db.otps.find? (otpAppQuery email phone) with
      | none => (VerifyRes.notFound, db)
      | some r =>
        if r.expiresAt < now then
          (VerifyRes.expired, { db with otps := db.otps.eraseP (fun x => x.id == r.id) })
        else if otp != some r.code then (VerifyRes.mismatch, db)
        else
          (VerifyRes.okApp (if truthy email then email else none)
              (if truthy phone then phone else none),
            { db with otps := saveOtp db.otps { r with verified := true } })
  else
    match db.users.find? (userQuery email phone) with
    | none => (VerifyRes.notFound, db)
    | some u =>
      match u.otp with
      | none => (VerifyRes.notFound, db)
      | some o =>
        if o.expiresAt < now then (VerifyRes.expired, db)
        else if otp != some o.code then (VerifyRes.mismatch, db)
        else
          let u2 := verifiedUpdate u email phone purpose
          (VerifyRes.okUser u2, { db with users := saveUser db.users u2 })

/-!
The mail transport adapter (src/utils/sendEmail.js): configuration
validation, the memoized transporter keyed by a config hash, and the
OTP-mail entry point with its email-shape validation. The network action of
`transporter.sendMail` is external and is supplied as an outcome parameter;
the third component of the send results counts how often it was invoked.
-/

/-- The four SMTP environment variables; `none` models an unset variable. -/
structure SmtpEnv where
  host : Option String
  port : Option String
  user : Option String
  pass : Option String
deriving Repr, DecidableEq

/-- The cheap configuration fingerprint compared on every call:
`HOST_PORT_USER`, each part defaulting to the empty string when unset.
The credential (`EMAIL_PASS`) is not part of it. -/
def getConfigHash (e : SmtpEnv) : String :=
  e.host.getD "" ++ "_" ++ e.port.getD "" ++ "_" ++ e.user.getD ""

/-- Strip leading and trailing whitespace from a character list (the model
of JS `.trim()` and of `String.trim`). -/
def trimChars (cs : List Char) : List Char :=
  ((cs.dropWhile Char.isWhitespace).reverse.dropWhile Char.isWhitespace).reverse

/-- `trim` on strings, via `trimChars`. -/
def trimString (s : String) : String :=
  ⟨trimChars s.data⟩

/-- `diagnoseSMTPConfig`: false when the host is unset or blank, or is
exactly `localhost` or `127.0.0.1`. -/
def diagnoseSMTPConfig (e : SmtpEnv) : Bool :=
  match e.host with
  | none => false
  | some h =>
    if h == "" || trimString h == "" then false
    else if h == "localhost" || h == "127.0.0.1" then false
    else true

/-- Accumulator pass over decimal digits; `none` on any non-digit. -/
def parseDigitsAux : List Char → Nat → Option Nat
  | [], acc => some acc
  | c :: rest, acc =>
    if c.isDigit then parseDigitsAux rest (acc * 10 + (c.toNat - 48))
    else none

/-- A non-empty run of decimal digits as a natural number. -/
def parseDigits (cs : List Char) : Option Nat :=
  match cs with
  | [] => none
  | _ => parseDigitsAux cs 0

/-- JS `Number(s)` restricted to the optionally signed integer literals the
port configuration uses: `none` models NaN. -/
def parseNumber (s : String) : Option Int :=
  match trimChars s.data with
  | [] => none
  | c :: rest =>
    if c == '-' then (parseDigits rest).map (fun n => -(n : Int))
    else if c == '+' then (parseDigits rest).map (fun n => (n : Int))
    else (parseDigits (c :: rest)).map (fun n => (n : Int))

/-- Whether an optional environment value is set and non-blank (the
missing/empty checks of `validateSMTPConfig`). -/
def envPresent (v : Option String) : Bool :=
  match v with
  | none => false
  | some s => !(s == "") && !(trimString s == "")

/-- `validateSMTPConfig`: all four variables set and non-blank, the port a
positive number, and the trimmed host neither empty nor loopback. -/
def validateSMTPConfig (e : SmtpEnv) : Bool :=
  if !(envPresent e.host && envPresent e.port && envPresent e.user
        && envPresent e.pass) then false
  else
    match parseNumber (e.port.getD "") with
    | none => false
    | some p =>
      if p ≤ 0 then false
      else
        let h := trimString (e.host.getD "")
        if h == "" || h == "localhost" || h == "127.0.0.1" then false
        else true

/-- The transporter handle `nodemailer.createTransport` returns, restricted
to the fields the config fixes. Host and port are hard-coded in the source;
the auth fields are the raw environment values. -/
structure Transporter where
  host : String
  port : Nat
  secure : Bool
  authUser : String
  authPass : String
deriving Repr, DecidableEq

/-- `createTransporter`: `none` when diagnosis or validation fails,
otherwise a handle with the hard-coded Brevo host and port and the current
auth values. -/
def createTransporter (e : SmtpEnv) : Option Transporter :=
  if !diagnoseSMTPConfig e then none
  else if !validateSMTPConfig e then none
  else some { host := "smtp-relay.brevo.com", port := 465, secure := false,
              authUser := e.user.getD "", authPass := e.pass.getD "" }

/-- The module-level memoization state: the cached handle, the
initialization flag, and the hash the handle was built under. -/
structure TransporterState where
  transporter : Option Transporter
  transporterInitialized : Bool
  lastConfigHash : Option String
deriving Repr, DecidableEq

/-- The state before any call: nothing cached. -/
def initialTransporterState : TransporterState :=
  { transporter := none, transporterInitialized := false, lastConfigHash := none }

/-- `getTransporter`: rebuild when uninitialized or the current hash differs
from the cached one, otherwise return the cached handle unchanged. The third
component reports whether `createTransporter` ran on this call. -/
def getTransporter (e : SmtpEnv) (st : TransporterState) :
    Option Transporter × TransporterState × Bool :=
  let currentConfigHash := getConfigHash e
  if !st.transporterInitialized || st.lastConfigHash != some currentConfigHash then
    let t := createTransporter e
    (t, { transporter := t, transporterInitialized := true,
          lastConfigHash := some currentConfigHash }, true)
  else (st.transporter, st, false)

/-- A character the pattern `[^\s@]` accepts: not `@` and not whitespace. -/
def emailChar (c : Char) : Bool :=
  !(c == '@') && !c.isWhitespace

/-- Split a character list at every occurrence of a separator character (the
model of `String.splitOn` with a one-character separator). -/
def splitOnChar (sep : Char) : List Char → List (List Char)
  | [] => [[]]
  | x :: rest =>
    match splitOnChar sep rest with
    | [] => if x == sep then [[], [x]] else [[x]]
    | h :: t => if x == sep then [] :: h :: t else (x :: h) :: t

/-- The test of the pattern, on the character list of the string: exactly one
`@`, a non-empty all-`emailChar` part before it, and after it a part whose
characters are all `emailChar` and which contains a dot that is neither its
first nor its last character. -/
def emailShapeTest (s : String) : Bool :=
  match splitOnChar '@' s.data with
  | [a, r] =>
    !(a == []) && a.all emailChar && r.all emailChar &&
      ((r.drop 1).dropLast.contains '.')
  | _ => false

/-- What the external `transporter.sendMail` would do if invoked. -/
inductive SmtpOutcome where
  | sent (messageId : String)
  | errored (code : String)
deriving Repr, DecidableEq

/-- The result shape `sendEmail`/`sendOTPEmail` resolve with, restricted to
the success flag and the error code. -/
structure EmailResult where
  success : Bool
  code : Option String
deriving Repr, DecidableEq

/-- `sendEmail`: obtain the (possibly rebuilt) transporter; `ENOCONFIG` when
none; `EMISSING` when `to` or `subject` is falsy; otherwise one `sendMail`
invocation whose outcome is the supplied one. Returns the result, the
updated memoization state, and the number of `sendMail` invocations. -/
def sendEmail (e : SmtpEnv) (st : TransporterState) (outcome : SmtpOutcome)
    (toAddr subject : String) : EmailResult × TransporterState × Nat :=
  match getTransporter e st with
  | (none, st2, _) => ({ success := false, code := some "ENOCONFIG" }, st2, 0)
  | (some _, st2, _) =>
    if toAddr == "" || subject == "" then
      ({ success := false, code := some "EMISSING" }, st2, 0)
    else
      match outcome with
      | SmtpOutcome.sent _ => ({ success := true, code := none }, st2, 1)
      | SmtpOutcome.errored c => ({ success := false, code := some c }, st2, 1)

/-- `sendOTPEmail`: fail fast with `EINVALID` when the recipient is falsy or
does not match the email-shape pattern — before `sendEmail` (and hence the
transporter and `sendMail`) is ever reached — otherwise delegate to
`sendEmail` with the OTP subject line. -/
def sendOTPEmail (e : SmtpEnv) (st : TransporterState) (outcome : SmtpOutcome)
    (toAddr otp purpose : String) : EmailResult × TransporterState × Nat :=
  if toAddr == "" || !emailShapeTest toAddr then
    ({ success := false, code := some "EINVALID" }, st, 0)
  else sendEmail e st outcome toAddr ("Your OTP for " ++ purpose)

/-!
Helper lemmas about the persistence primitives (`saveUser`, `saveOtp`,
`find?` over the collection lists) used by several of the claim theorems.
-/

/-- Every element of a saved user list is an old element or the saved record. -/
theorem mem_saveUser {l : List UserRec} {u v : UserRec}
    (h : v ∈ saveUser l u) : v ∈ l ∨ v = u := by
  unfold saveUser at h
  rcases List.mem_map.mp h with ⟨a, ha, hav⟩
  by_cases hid : (a.id == u.id) = true
  · right
    rw [if_pos hid] at hav
    exact hav.symm
  · left
    rw [if_neg hid] at hav
    exact hav ▸ ha

/-- Every element of a saved OTP list is an old element or the saved record. -/
theorem mem_saveOtp {l : List OTPRecord} {r x : OTPRecord}
    (h : x ∈ saveOtp l r) : x ∈ l ∨ x = r := by
  unfold saveOtp at h
  rcases List.mem_map.mp h with ⟨a, ha, hax⟩
  by_cases hid : (a.id == r.id) = true
  · right
    rw [if_pos hid] at hax
    exact hax.symm
  · left
    rw [if_neg hid] at hax
    exact hax ▸ ha

/-- Finding a user, saving a replacement with the same id that still matches
the query, and searching again finds the replacement. -/
theorem find?_saveUser_self (p : UserRec → Bool) (l : List UserRec)
    (u u2 : UserRec) (hfind : l.find? p = some u) (hid : u2.id = u.id)
    (hp : p u2 = true) : (saveUser l u2).find? p = some u2 := by
  induction l with
  | nil => simp at hfind
  | cons v rest ih =>
    simp only [saveUser, List.map_cons]
    by_cases hv : p v = true
    · have huv : u = v := by
        rw [List.find?_cons_of_pos rest hv] at hfind
        exact (Option.some_inj.mp hfind).symm
      have hvid : (v.id == u2.id) = true := by
        simp [hid, huv]
      rw [if_pos hvid]
      exact List.find?_cons_of_pos _ hp
    · rw [List.find?_cons_of_neg rest hv] at hfind
      by_cases hvid : (v.id == u2.id) = true
      · rw [if_pos hvid]
        exact List.find?_cons_of_pos _ hp
      · rw [if_neg hvid, List.find?_cons_of_neg _ hv]
        have := ih hfind
        simpa [saveUser] using this

/-- If the only query match in the list is `r`, and the replacement (same id)
no longer matches, then after the save nothing matches. -/
theorem find?_saveOtp_none (p : OTPRecord → Bool) (l : List OTPRecord)
    (r r2 : OTPRecord) (huniq : ∀ x ∈ l, p x = true → x = r)
    (hid : r2.id = r.id) (hp : p r2 = false) :
    (saveOtp l r2).find? p = none := by
  apply List.find?_eq_none.mpr
  intro x hx hpx
  rcases List.mem_map.mp hx with ⟨a, ha, hax⟩
  by_cases haid : (a.id == r2.id) = true
  · rw [if_pos haid] at hax
    rw [← hax] at hpx
    rw [hp] at hpx
    exact Bool.false_ne_true hpx
  · rw [if_neg haid] at hax
    have har : a = r := huniq a ha (hax ▸ hpx)
    rw [har, hid] at haid
    simp at haid

/-- Filtering for a predicate after filtering it away yields nothing. -/
theorem filter_not_filter {α : Type} (p : α → Bool) (l : List α) :
    (l.filter (fun a => !p a)).filter p = [] := by
  rw [List.filter_filter]
  apply List.filter_eq_nil_iff.mpr
  intro a _
  cases h : p a <;> simp [h]

/-- `find?` over a list purged of all `q`-matches followed by a single new
element: when the search predicate implies `q` and accepts the new element,
the search returns the new element. -/
theorem find?_purged_append {α : Type} (p q : α → Bool) (l : List α) (x : α)
    (himp : ∀ a, p a = true → q a = true) (hx : p x = true) :
    ((l.filter (fun a => !q a)) ++ [x]).find? p = some x := by
  rw [List.find?_append]
  have h1 : (l.filter (fun a => !q a)).find? p = none := by
    apply List.find?_eq_none.mpr
    intro a ha hpa
    have hqa := himp a hpa
    have := (List.mem_filter.mp ha).2
    rw [hqa] at this
    simp at this
  rw [h1]
  have h2 : List.find? p [x] = some x := List.find?_cons_of_pos [] hx
  rw [h2]
  rfl

/-!
Unfolding equations for the handlers once the lookup phase is fixed by
hypotheses. These expose each flow's branch order — existence, then expiry,
then value match, then success for the two verify-otp flows; existence, then
purpose-and-value match, then expiry for reset-password — and are shared by
the claim theorems below.
-/

/-- The application flow of verify-otp once a standalone record is found:
expiry (with lazy deletion), then code match, then success. -/
theorem verifyOtp_app_found (db : DB) (email phone otpStr : Option String)
    (now : Nat) (r : OTPRecord)
    (hreq : truthy otpStr = true)
    (hsub : (!truthy email && !truthy phone) = false)
    (hfind : db.otps.find? (otpAppQuery email phone) = some r) :
    verifyOtp db email phone otpStr (some "application") now =
      if r.expiresAt < now then
        (VerifyRes.expired,
          { db with otps := db.otps.eraseP (fun x => x.id == r.id) })
      else if otpStr != some r.code then (VerifyRes.mismatch, db)
      else
        (VerifyRes.okApp (if truthy email then email else none)
            (if truthy phone then phone else none),
          { db with otps := saveOtp db.otps { r with verified := true } }) := by
  unfold verifyOtp
  rw [hreq, hsub, hfind]
  simp

/-- The user-based flow of verify-otp once the user and a populated slot are
found: expiry, then code match, then success with the flag update and the
slot cleared. -/
theorem verifyOtp_user_found (db : DB) (email phone otpStr purpose : Option String)
    (now : Nat) (u : UserRec) (o : EmbeddedOTP)
    (hreq : truthy otpStr = true)
    (hsub : (!truthy email && !truthy phone) = false)
    (hpurp : (purpose == some "application") = false)
    (hfind : db.users.find? (userQuery email phone) = some u)
    (hotp : u.otp = some o) :
    verifyOtp db email phone otpStr purpose now =
      if o.expiresAt < now then (VerifyRes.expired, db)
      else if otpStr != some o.code then (VerifyRes.mismatch, db)
      else
        (VerifyRes.okUser (verifiedUpdate u email phone purpose),
          { db with users := saveUser db.users (verifiedUpdate u email phone purpose) }) := by
  unfold verifyOtp
  rw [hreq, hsub, hpurp, hfind]
  simp [hotp]

/-- Reset-password once the user and a populated slot are found: the joint
purpose-and-code check comes first, the expiry check second. -/
theorem resetPassword_found (db : DB) (email otpStr npw : Option String)
    (now : Nat) (u : UserRec) (o : EmbeddedOTP)
    (hreq : (!truthy email || !truthy otpStr || !truthy npw) = false)
    (hfind : db.users.find? (userQuery email none) = some u)
    (hotp : u.otp = some o) :
    resetPassword db email otpStr npw now =
      if o.purpose != "password_reset" || some o.code != otpStr then
        (ResetRes.invalidOtp, db)
      else if o.expiresAt < now then (ResetRes.expired, db)
      else
        (ResetRes.ok,
          { db with users :=
              saveUser db.users { u with password := npw.getD "", otp := none } }) := by
  unfold resetPassword
  rw [hreq, hfind]
  simp [hotp]

/-- The application flow of verify-otp when no standalone record matches the
query: NOT_FOUND with the state untouched. -/
theorem verifyOtp_app_notFound (db : DB) (email phone otpStr : Option String)
    (now : Nat)
    (hreq : truthy otpStr = true)
    (hsub : (!truthy email && !truthy phone) = false)
    (hfind : db.otps.find? (otpAppQuery email phone) = none) :
    verifyOtp db email phone otpStr (some "application") now =
      (VerifyRes.notFound, db) := by
  unfold verifyOtp
  rw [hreq, hsub, hfind]
  simp

/-- The user-based flow of verify-otp when no user matches the query:
NOT_FOUND with the state untouched. -/
theorem verifyOtp_user_none (db : DB) (email phone otpStr purpose : Option String)
    (now : Nat)
    (hreq : truthy otpStr = true)
    (hsub : (!truthy email && !truthy phone) = false)
    (hpurp : (purpose == some "application") = false)
    (hfind : db.users.find? (userQuery email phone) = none) :
    verifyOtp db email phone otpStr purpose now = (VerifyRes.notFound, db) := by
  unfold verifyOtp
  rw [hreq, hsub, hpurp, hfind]
  simp

/-- The user-based flow of verify-otp when the user is found but the OTP
slot is empty: NOT_FOUND with the state untouched. -/
theorem verifyOtp_user_noslot (db : DB) (email phone otpStr purpose : Option String)
    (now : Nat) (u : UserRec)
    (hreq : truthy otpStr = true)
    (hsub : (!truthy email && !truthy phone) = false)
    (hpurp : (purpose == some "application") = false)
    (hfind : db.users.find? (userQuery email phone) = some u)
    (hotp : u.otp = none) :
    verifyOtp db email phone otpStr purpose now = (VerifyRes.notFound, db) := by
  unfold verifyOtp
  rw [hreq, hsub, hpurp, hfind]
  simp [hotp]

/-- The application/email branch of send-otp always leaves the collection
purged of the subject's previous application records plus one fresh record,
whatever the delivery outcome. -/
theorem sendOtp_app_email_state (db : DB) (email phone : Option String)
    (now : Nat) (code : String) (isProd emailOk : Bool)
    (hem : truthy email = true) :
    (sendOtp db email phone (some "application") now code isProd emailOk).2 =
      { db with
        otps := db.otps.filter
            (fun r => !(r.email == email && r.purpose == "application"))
          ++ [⟨db.nextId, email, none, code, "application", now + otpTtlMs, false⟩],
        nextId := db.nextId + 1 } := by
  unfold sendOtp
  rw [hem]
  cases emailOk <;> simp

/-- The application/phone branch of send-otp (no email supplied) likewise
leaves the collection purged of the subject's previous application records
plus one fresh record. -/
theorem sendOtp_app_phone_state (db : DB) (phone : Option String)
    (now : Nat) (code : String) (isProd emailOk : Bool)
    (hph : truthy phone = true) :
    (sendOtp db none phone (some "application") now code isProd emailOk).2 =
      { db with
        otps := db.otps.filter
            (fun r => !(r.phone == phone && r.purpose == "application"))
          ++ [⟨db.nextId, none, phone, code, "application", now + otpTtlMs, false⟩],
        nextId := db.nextId + 1 } := by
  unfold sendOtp
  rw [hph]
  simp [truthy]

/-!
Claim theorems.
-/

/-- C1, counterexample: in the user-based verify-otp flow the stored purpose
is never compared with the supplied one. A user whose stored OTP was issued
under `password_reset` validates successfully with the correct code under
the different non-application purpose `email`: the result is not NOT_FOUND,
the slot is cleared, and the email verification flag is set — directly
contradicting the claim. -/
theorem c1_counterexample :
    (verifyOtp ⟨[⟨1, "a@x.com", "111", "pw",
          some ⟨"111111", 1000000, "password_reset"⟩, false, false⟩], [], 0⟩
        (some "a@x.com") none (some "111111") (some "email") 0).1 ≠
      VerifyRes.notFound ∧
    (verifyOtp ⟨[⟨1, "a@x.com", "111", "pw",
          some ⟨"111111", 1000000, "password_reset"⟩, false, false⟩], [], 0⟩
        (some "a@x.com") none (some "111111") (some "email") 0) =
      (VerifyRes.okUser ⟨1, "a@x.com", "111", "pw", none, true, false⟩,
        ⟨[⟨1, "a@x.com", "111", "pw", none, true, false⟩], [], 0⟩) := by
  decide

/-- C1, amended: purpose matching between issuance and consumption holds
only trivially in the application flow (whose query pins the purpose). In
the user-based flow the stored purpose is not consulted at all: for any
stored slot — whatever purpose it was issued under — a request supplying the
correct unexpired code and any non-application purpose returns OK (not
NOT_FOUND), clears the slot, and sets the verification flags chosen by the
supplied purpose. -/
theorem c1_amended (db : DB) (email phone otpStr purpose : Option String)
    (now : Nat) (u : UserRec) (o : EmbeddedOTP)
    (hreq : truthy otpStr = true)
    (hsub : (!truthy email && !truthy phone) = false)
    (hpurp : (purpose == some "application") = false)
    (hfind : db.users.find? (userQuery email phone) = some u)
    (hotp : u.otp = some o)
    (hexp : ¬ o.expiresAt < now)
    (hcode : otpStr = some o.code) :
    (verifyOtp db email phone otpStr purpose now).1 =
        VerifyRes.okUser (verifiedUpdate u email phone purpose) ∧
    (verifyOtp db email phone otpStr purpose now).2 =
      { db with users := saveUser db.users (verifiedUpdate u email phone purpose) } := by
  have h := verifyOtp_user_found db email phone otpStr purpose now u o
    hreq hsub hpurp hfind hotp
  have hne : (otpStr != some o.code) = false := by
    simp [hcode]
  rw [h, if_neg hexp, hne]
  simp

/-- C1, witness for the amended theorem: the stored purpose is
`password_reset`, the supplied purpose is `email`, the code matches and is
unexpired; the flow returns OK with the slot cleared. -/
theorem c1_amended_witness :
    (verifyOtp ⟨[⟨1, "a@x.com", "111", "pw",
          some ⟨"111111", 1000000, "password_reset"⟩, false, false⟩], [], 0⟩
        (some "a@x.com") none (some "111111") (some "email") 0).1 =
      VerifyRes.okUser (verifiedUpdate
        ⟨1, "a@x.com", "111", "pw", some ⟨"111111", 1000000, "password_reset"⟩,
          false, false⟩ (some "a@x.com") none (some "email")) ∧
    (verifyOtp ⟨[⟨1, "a@x.com", "111", "pw",
          some ⟨"111111", 1000000, "password_reset"⟩, false, false⟩], [], 0⟩
        (some "a@x.com") none (some "111111") (some "email") 0).2 =
      { users := saveUser
          [⟨1, "a@x.com", "111", "pw", some ⟨"111111", 1000000, "password_reset"⟩,
            false, false⟩]
          (verifiedUpdate
            ⟨1, "a@x.com", "111", "pw", some ⟨"111111", 1000000, "password_reset"⟩,
              false, false⟩ (some "a@x.com") none (some "email")),
        otps := [], nextId := 0 } :=
  c1_amended ⟨[⟨1, "a@x.com", "111", "pw",
        some ⟨"111111", 1000000, "password_reset"⟩, false, false⟩], [], 0⟩
    (some "a@x.com") none (some "111111") (some "email") 0
    ⟨1, "a@x.com", "111", "pw", some ⟨"111111", 1000000, "password_reset"⟩,
      false, false⟩
    ⟨"111111", 1000000, "password_reset"⟩
    (by decide) (by decide) (by decide) (by decide) (by decide) (by decide)
    (by decide)

/-- C2, counterexample: reset-password checks the joint purpose-and-code
condition before expiry. A record expired at time 1000, validated at time
2000 with a wrong code, yields `Invalid OTP` (the mismatch answer), not
`OTP has expired` — contradicting the claimed fixed order for the
consume-on-reset specialization. -/
theorem c2_counterexample :
    (resetPassword ⟨[⟨1, "a@x.com", "111", "pw",
          some ⟨"123456", 1000, "password_reset"⟩, false, false⟩], [], 0⟩
        (some "a@x.com") (some "999999") (some "npw") 2000).1 =
      ResetRes.invalidOtp ∧
    (resetPassword ⟨[⟨1, "a@x.com", "111", "pw",
          some ⟨"123456", 1000, "password_reset"⟩, false, false⟩], [], 0⟩
        (some "a@x.com") (some "999999") (some "npw") 2000).1 ≠
      ResetRes.expired := by
  decide

/-- C2, amended: the two verify-otp flows (standalone and user-based) do
evaluate existence, then expiry, then value match — an expired record with a
wrong code reports EXPIRED there — but the reset-password specialization
checks purpose-and-code before expiry, so an expired record with a wrong
code reports the mismatch answer `Invalid OTP`, not EXPIRED. -/
theorem c2_amended :
    (∀ (db : DB) (email phone otpStr : Option String) (now : Nat) (r : OTPRecord),
      truthy otpStr = true → (!truthy email && !truthy phone) = false →
      db.otps.find? (otpAppQuery email phone) = some r →
      r.expiresAt < now → otpStr ≠ some r.code →
      (verifyOtp db email phone otpStr (some "application") now).1 =
        VerifyRes.expired) ∧
    (∀ (db : DB) (email phone otpStr purpose : Option String) (now : Nat)
        (u : UserRec) (o : EmbeddedOTP),
      truthy otpStr = true → (!truthy email && !truthy phone) = false →
      (purpose == some "application") = false →
      db.users.find? (userQuery email phone) = some u → u.otp = some o →
      o.expiresAt < now → otpStr ≠ some o.code →
      (verifyOtp db email phone otpStr purpose now).1 = VerifyRes.expired) ∧
    (∀ (db : DB) (email otpStr npw : Option String) (now : Nat)
        (u : UserRec) (o : EmbeddedOTP),
      (!truthy email || !truthy otpStr || !truthy npw) = false →
      db.users.find? (userQuery email none) = some u → u.otp = some o →
      some o.code ≠ otpStr → o.expiresAt < now →
      (resetPassword db email otpStr npw now).1 = ResetRes.invalidOtp) := by
  refine ⟨?_, ?_, ?_⟩
  · intro db email phone otpStr now r hreq hsub hfind hexp _
    rw [verifyOtp_app_found db email phone otpStr now r hreq hsub hfind,
      if_pos hexp]
  · intro db email phone otpStr purpose now u o hreq hsub hpurp hfind hotp hexp _
    rw [verifyOtp_user_found db email phone otpStr purpose now u o
      hreq hsub hpurp hfind hotp, if_pos hexp]
  · intro db email otpStr npw now u o hreq hfind hotp hcode _
    have hb : (o.purpose != "password_reset" || some o.code != otpStr) = true := by
      have : (some o.code != otpStr) = true := by
        simp [hcode]
      simp [this]
    rw [resetPassword_found db email otpStr npw now u o hreq hfind hotp]
    simp [hb]

/-- C2, witness for the amended theorem: all three branch-order facts at
concrete inputs — expired-and-wrong yields EXPIRED in both verify flows and
`Invalid OTP` at reset-password. -/
theorem c2_amended_witness :
    (verifyOtp ⟨[], [⟨7, some "b@x.com", none, "123456", "application", 1000, false⟩], 8⟩
        (some "b@x.com") none (some "999999") (some "application") 2000).1 =
      VerifyRes.expired ∧
    (verifyOtp ⟨[⟨1, "a@x.com", "111", "pw",
          some ⟨"123456", 1000, "verification"⟩, false, false⟩], [], 0⟩
        (some "a@x.com") none (some "999999") (some "email") 2000).1 =
      VerifyRes.expired ∧
    (resetPassword ⟨[⟨1, "a@x.com", "111", "pw",
          some ⟨"123456", 1000, "password_reset"⟩, false, false⟩], [], 0⟩
        (some "a@x.com") (some "999999") (some "npw") 2000).1 =
      ResetRes.invalidOtp :=
  ⟨c2_amended.1 ⟨[], [⟨7, some "b@x.com", none, "123456", "application", 1000, false⟩], 8⟩
      (some "b@x.com") none (some "999999") 2000
      ⟨7, some "b@x.com", none, "123456", "application", 1000, false⟩
      (by decide) (by decide) (by decide) (by decide) (by decide),
    c2_amended.2.1 ⟨[⟨1, "a@x.com", "111", "pw",
          some ⟨"123456", 1000, "verification"⟩, false, false⟩], [], 0⟩
      (some "a@x.com") none (some "999999") (some "email") 2000
      ⟨1, "a@x.com", "111", "pw", some ⟨"123456", 1000, "verification"⟩, false, false⟩
      ⟨"123456", 1000, "verification"⟩
      (by decide) (by decide) (by decide) (by decide) (by decide) (by decide)
      (by decide),
    c2_amended.2.2 ⟨[⟨1, "a@x.com", "111", "pw",
          some ⟨"123456", 1000, "password_reset"⟩, false, false⟩], [], 0⟩
      (some "a@x.com") (some "999999") (some "npw") 2000
      ⟨1, "a@x.com", "111", "pw", some ⟨"123456", 1000, "password_reset"⟩, false, false⟩
      ⟨"123456", 1000, "password_reset"⟩
      (by decide) (by decide) (by decide) (by decide) (by decide)⟩

/-- C6, counterexample: the fingerprint covers only host, port and user —
the credential is excluded. After building a client under the credential
`oldpass`, a call with the credential changed to `newpass` (all else equal)
does not construct a new client: the rebuild flag is false and the stale
client built with `oldpass` is returned — contradicting the claim that a
change to any of the four inputs, including the credential alone, causes a
rebuild. -/
theorem c6_counterexample :
    (getTransporter ⟨some "smtp.example.com", some "465", some "u@x.com", some "newpass"⟩
        (getTransporter ⟨some "smtp.example.com", some "465", some "u@x.com", some "oldpass"⟩
          initialTransporterState).2.1).2.2 = false ∧
    (getTransporter ⟨some "smtp.example.com", some "465", some "u@x.com", some "newpass"⟩
        (getTransporter ⟨some "smtp.example.com", some "465", some "u@x.com", some "oldpass"⟩
          initialTransporterState).2.1).1 =
      some ⟨"smtp-relay.brevo.com", 465, false, "u@x.com", "oldpass"⟩ := by
  decide

/-- C6, amended: the memoized client is rebuilt exactly when the fingerprint
of THREE configuration inputs (host, port, user) differs from the cached
one, and reused otherwise; the credential is not part of the fingerprint, so
a change to the credential alone never triggers a rebuild. -/
theorem c6_amended (e1 e2 : SmtpEnv) (p : Option String) :
    ((getTransporter e2 (getTransporter e1 initialTransporterState).2.1).2.2 = true ↔
      getConfigHash e2 ≠ getConfigHash e1) ∧
    getConfigHash ⟨e1.host, e1.port, e1.user, p⟩ = getConfigHash e1 := by
  constructor
  · have h1 : (getTransporter e1 initialTransporterState).2.1 =
        ⟨createTransporter e1, true, some (getConfigHash e1)⟩ := by
      unfold getTransporter initialTransporterState
      simp
    rw [h1]
    unfold getTransporter
    by_cases hc : getConfigHash e2 = getConfigHash e1
    · simp [hc]
    · have hb : (some (getConfigHash e1) != some (getConfigHash e2)) = true := by
        simp [bne_iff_ne]
        exact fun hx => hc hx.symm
      simp [hb, hc]
  · rfl

/-- C6, witness for the amended theorem at a concrete pair of environments
differing in the user: the rebuild flag is equivalent to the hash
difference, and the hash ignores the credential. -/
theorem c6_amended_witness :
    ((getTransporter ⟨some "smtp.example.com", some "465", some "v@x.com", some "pw"⟩
        (getTransporter ⟨some "smtp.example.com", some "465", some "u@x.com", some "pw"⟩
          initialTransporterState).2.1).2.2 = true ↔
      getConfigHash ⟨some "smtp.example.com", some "465", some "v@x.com", some "pw"⟩ ≠
        getConfigHash ⟨some "smtp.example.com", some "465", some "u@x.com", some "pw"⟩) ∧
    getConfigHash ⟨some "smtp.example.com", some "465", some "u@x.com", some "other"⟩ =
      getConfigHash ⟨some "smtp.example.com", some "465", some "u@x.com", some "pw"⟩ :=
  c6_amended ⟨some "smtp.example.com", some "465", some "u@x.com", some "pw"⟩
    ⟨some "smtp.example.com", some "465", some "v@x.com", some "pw"⟩
    (some "other")

/-- C8: a recipient failing the email-shape pattern makes `sendOTPEmail`
return the `EINVALID` validation failure with the memoization state
untouched and zero `sendMail` invocations — no transport attempt is made. -/
theorem c8_invalid_address (e : SmtpEnv) (st : TransporterState)
    (outcome : SmtpOutcome) (toAddr otp purpose : String)
    (h : emailShapeTest toAddr = false) :
    sendOTPEmail e st outcome toAddr otp purpose =
      (⟨false, some "EINVALID"⟩, st, 0) := by
  unfold sendOTPEmail
  rw [h]
  simp

/-- C8, witness: the malformed address `not-an-email` fails the pattern and
yields the EINVALID failure with zero transport attempts. -/
theorem c8_invalid_address_witness :
    emailShapeTest "not-an-email" = false ∧
    sendOTPEmail ⟨some "smtp.example.com", some "465", some "u@x.com", some "pw"⟩
        initialTransporterState (SmtpOutcome.sent "mid") "not-an-email" "123456"
        "application" =
      (⟨false, some "EINVALID"⟩, initialTransporterState, 0) :=
  ⟨by decide,
    c8_invalid_address ⟨some "smtp.example.com", some "465", some "u@x.com", some "pw"⟩
      initialTransporterState (SmtpOutcome.sent "mid") "not-an-email" "123456"
      "application" (by decide)⟩

/-- C3: for every subject — email or phone — two sequential
application-purpose Issues leave exactly one standalone record for that
(subject, application) pair, because the second Issue deletes all prior
matching records before inserting, and a subsequent validation with the
first-issued code does not return OK: it is EXPIRED or MISMATCH. -/
theorem c3_supersession (subj code1 code2 : String) (hsubj : subj ≠ "")
    (hc1 : code1 ≠ "") (hcode : code1 ≠ code2) :
    (∀ (db db2 : DB) (now1 now2 now3 : Nat) (isProd1 isProd2 eok1 eok2 : Bool),
      db2 =
        (sendOtp (sendOtp db (some subj) none (some "application") now1 code1 isProd1 eok1).2
          (some subj) none (some "application") now2 code2 isProd2 eok2).2 →
      (db2.otps.filter
        (fun r => r.email == some subj && r.purpose == "application")).length = 1 ∧
      ((verifyOtp db2 (some subj) none (some code1) (some "application") now3).1 =
          VerifyRes.expired ∨
        (verifyOtp db2 (some subj) none (some code1) (some "application") now3).1 =
          VerifyRes.mismatch)) ∧
    (∀ (db db2 : DB) (now1 now2 now3 : Nat) (isProd1 isProd2 eok1 eok2 : Bool),
      db2 =
        (sendOtp (sendOtp db none (some subj) (some "application") now1 code1 isProd1 eok1).2
          none (some subj) (some "application") now2 code2 isProd2 eok2).2 →
      (db2.otps.filter
        (fun r => r.phone == some subj && r.purpose == "application")).length = 1 ∧
      ((verifyOtp db2 none (some subj) (some code1) (some "application") now3).1 =
          VerifyRes.expired ∨
        (verifyOtp db2 none (some subj) (some code1) (some "application") now3).1 =
          VerifyRes.mismatch)) := by
  have htr : truthy (some subj) = true := by
    simp [truthy, hsubj]
  have hreq : truthy (some code1) = true := by
    simp [truthy, hc1]
  constructor
  · intro db db2 now1 now2 now3 isProd1 isProd2 eok1 eok2 hdb2
    have h1 := sendOtp_app_email_state db (some subj) none now1 code1 isProd1 eok1 htr
    have h2 := sendOtp_app_email_state
      (sendOtp db (some subj) none (some "application") now1 code1 isProd1 eok1).2
      (some subj) none now2 code2 isProd2 eok2 htr
    have hrec1 : ([(⟨db.nextId, some subj, none, code1, "application", now1 + otpTtlMs,
        false⟩ : OTPRecord)].filter
          (fun r => !(r.email == some subj && r.purpose == "application"))) = [] := by
      simp
    have hotps : db2.otps =
        db.otps.filter (fun r => !(r.email == some subj && r.purpose == "application")) ++
          [⟨db.nextId + 1, some subj, none, code2, "application", now2 + otpTtlMs, false⟩] := by
      rw [hdb2, h2, h1]
      simp only [List.filter_append, hrec1, List.filter_filter, Bool.and_self,
        List.append_nil]
    constructor
    · rw [hotps, List.filter_append,
        filter_not_filter (fun r => r.email == some subj && r.purpose == "application")
          db.otps]
      simp
    · have hfind : db2.otps.find? (otpAppQuery (some subj) none) =
          some ⟨db.nextId + 1, some subj, none, code2, "application", now2 + otpTtlMs,
            false⟩ := by
        rw [hotps]
        apply find?_purged_append
        · intro a ha
          unfold otpAppQuery at ha
          rw [htr] at ha
          simp only [if_true, Bool.and_eq_true] at ha
          simp only [Bool.and_eq_true]
          constructor
          · simp_all
          · simp_all
        · simp [otpAppQuery, htr]
      have hsub : (!truthy (some subj) && !truthy (none : Option String)) = false := by
        rw [htr]
        simp
      rw [verifyOtp_app_found db2 (some subj) none (some code1) now3 _ hreq hsub hfind]
      by_cases hexp : now2 + otpTtlMs < now3
      · rw [if_pos hexp]
        exact Or.inl rfl
      · rw [if_neg hexp]
        have : ((some code1 : Option String) !=
            some (⟨db.nextId + 1, some subj, none, code2, "application",
              now2 + otpTtlMs, false⟩ : OTPRecord).code) = true := by
          simp [hcode]
        rw [this]
        exact Or.inr rfl
  · intro db db2 now1 now2 now3 isProd1 isProd2 eok1 eok2 hdb2
    have h1 := sendOtp_app_phone_state db (some subj) now1 code1 isProd1 eok1 htr
    have h2 := sendOtp_app_phone_state
      (sendOtp db none (some subj) (some "application") now1 code1 isProd1 eok1).2
      (some subj) now2 code2 isProd2 eok2 htr
    have hrec1 : ([(⟨db.nextId, none, some subj, code1, "application", now1 + otpTtlMs,
        false⟩ : OTPRecord)].filter
          (fun r => !(r.phone == some subj && r.purpose == "application"))) = [] := by
      simp
    have hotps : db2.otps =
        db.otps.filter (fun r => !(r.phone == some subj && r.purpose == "application")) ++
          [⟨db.nextId + 1, none, some subj, code2, "application", now2 + otpTtlMs, false⟩] := by
      rw [hdb2, h2, h1]
      simp only [List.filter_append, hrec1, List.filter_filter, Bool.and_self,
        List.append_nil]
    constructor
    · rw [hotps, List.filter_append,
        filter_not_filter (fun r => r.phone == some subj && r.purpose == "application")
          db.otps]
      simp
    · have hfind : db2.otps.find? (otpAppQuery none (some subj)) =
          some ⟨db.nextId + 1, none, some subj, code2, "application", now2 + otpTtlMs,
            false⟩ := by
        rw [hotps]
        apply find?_purged_append
        · intro a ha
          unfold otpAppQuery at ha
          rw [htr] at ha
          simp only [truthy, Bool.and_eq_true] at ha
          simp only [Bool.and_eq_true]
          constructor
          · simp_all
          · simp_all
        · simp [otpAppQuery, htr, truthy, hsubj]
      have hsub : (!truthy (none : Option String) && !truthy (some subj)) = false := by
        rw [htr]
        simp
      rw [verifyOtp_app_found db2 none (some subj) (some code1) now3 _ hreq hsub hfind]
      by_cases hexp : now2 + otpTtlMs < now3
      · rw [if_pos hexp]
        exact Or.inl rfl
      · rw [if_neg hexp]
        have : ((some code1 : Option String) !=
            some (⟨db.nextId + 1, none, some subj, code2, "application",
              now2 + otpTtlMs, false⟩ : OTPRecord).code) = true := by
          simp [hcode]
        rw [this]
        exact Or.inr rfl

/-- C3, witness: starting from the empty state, issuing `111111` then
`222222` for the same subject — once as an email subject, once as a phone
subject — leaves one record each, and validating `111111` afterwards is a
MISMATCH (or EXPIRED), never OK, on both branches. -/
theorem c3_supersession_witness :
    (((sendOtp (sendOtp ⟨[], [], 0⟩ (some "777") none (some "application")
          0 "111111" false true).2
        (some "777") none (some "application") 0 "222222" false true).2.otps.filter
      (fun r => r.email == some "777" && r.purpose == "application")).length = 1 ∧
    ((verifyOtp (sendOtp (sendOtp ⟨[], [], 0⟩ (some "777") none (some "application")
          0 "111111" false true).2
        (some "777") none (some "application") 0 "222222" false true).2
        (some "777") none (some "111111") (some "application") 0).1 =
        VerifyRes.expired ∨
      (verifyOtp (sendOtp (sendOtp ⟨[], [], 0⟩ (some "777") none (some "application")
          0 "111111" false true).2
        (some "777") none (some "application") 0 "222222" false true).2
        (some "777") none (some "111111") (some "application") 0).1 =
        VerifyRes.mismatch)) ∧
    (((sendOtp (sendOtp ⟨[], [], 0⟩ none (some "777") (some "application")
          0 "111111" false true).2
        none (some "777") (some "application") 0 "222222" false true).2.otps.filter
      (fun r => r.phone == some "777" && r.purpose == "application")).length = 1 ∧
    ((verifyOtp (sendOtp (sendOtp ⟨[], [], 0⟩ none (some "777") (some "application")
          0 "111111" false true).2
        none (some "777") (some "application") 0 "222222" false true).2
        none (some "777") (some "111111") (some "application") 0).1 =
        VerifyRes.expired ∨
      (verifyOtp (sendOtp (sendOtp ⟨[], [], 0⟩ none (some "777") (some "application")
          0 "111111" false true).2
        none (some "777") (some "application") 0 "222222" false true).2
        none (some "777") (some "111111") (some "application") 0).1 =
        VerifyRes.mismatch)) :=
  ⟨(c3_supersession "777" "111111" "222222" (by decide) (by decide) (by decide)).1
      ⟨[], [], 0⟩
      (sendOtp (sendOtp ⟨[], [], 0⟩ (some "777") none (some "application")
          0 "111111" false true).2
        (some "777") none (some "application") 0 "222222" false true).2
      0 0 0 false false true true rfl,
    (c3_supersession "777" "111111" "222222" (by decide) (by decide) (by decide)).2
      ⟨[], [], 0⟩
      (sendOtp (sendOtp ⟨[], [], 0⟩ none (some "777") (some "application")
          0 "111111" false true).2
        none (some "777") (some "application") 0 "222222" false true).2
      0 0 0 false false true true rfl⟩

/-- C4: a successfully validated OTP is single-use. Standalone shape: when
the sole active record matching the query validates OK, it is saved with
`verified := true`, so a second identical validation finds nothing
(`verified=false` filter) and returns NOT_FOUND. Embedded shape: a
successful validation clears the user's slot, so a second identical
validation finds the user with an empty slot and returns NOT_FOUND. -/
theorem c4_single_use :
    (∀ (db : DB) (email phone : Option String) (now1 now2 : Nat) (r : OTPRecord),
      (!truthy email && !truthy phone) = false →
      r.code ≠ "" →
      db.otps.find? (otpAppQuery email phone) = some r →
      (∀ x ∈ db.otps, otpAppQuery email phone x = true → x = r) →
      ¬ r.expiresAt < now1 →
      (verifyOtp db email phone (some r.code) (some "application") now1).1 =
        VerifyRes.okApp (if truthy email then email else none)
          (if truthy phone then phone else none) ∧
      (verifyOtp (verifyOtp db email phone (some r.code) (some "application") now1).2
          email phone (some r.code) (some "application") now2).1 =
        VerifyRes.notFound) ∧
    (∀ (db : DB) (email phone purpose : Option String) (now1 now2 : Nat)
        (u : UserRec) (o : EmbeddedOTP),
      (!truthy email && !truthy phone) = false →
      (purpose == some "application") = false →
      o.code ≠ "" →
      db.users.find? (userQuery email phone) = some u →
      u.otp = some o →
      ¬ o.expiresAt < now1 →
      (verifyOtp db email phone (some o.code) purpose now1).1 =
        VerifyRes.okUser (verifiedUpdate u email phone purpose) ∧
      (verifyOtp (verifyOtp db email phone (some o.code) purpose now1).2
          email phone (some o.code) purpose now2).1 = VerifyRes.notFound) := by
  constructor
  · intro db email phone now1 now2 r hsub hc hfind huniq hexp
    have hreq : truthy (some r.code) = true := by
      simp [truthy, hc]
    have hself : ((some r.code : Option String) != some r.code) = false := by
      simp
    have h1 := verifyOtp_app_found db email phone (some r.code) now1 r hreq hsub hfind
    rw [if_neg hexp, hself] at h1
    simp only [Bool.false_eq_true, if_false] at h1
    refine ⟨by rw [h1], ?_⟩
    have hstate : (verifyOtp db email phone (some r.code) (some "application") now1).2 =
        { db with otps := saveOtp db.otps { r with verified := true } } := by
      rw [h1]
    rw [hstate]
    have hnone : (saveOtp db.otps { r with verified := true }).find?
        (otpAppQuery email phone) = none := by
      apply find?_saveOtp_none (otpAppQuery email phone) db.otps r
        { r with verified := true } huniq rfl
      simp [otpAppQuery]
    have h2 := verifyOtp_app_notFound
      { db with otps := saveOtp db.otps { r with verified := true } }
      email phone (some r.code) now2 hreq hsub hnone
    rw [h2]
  · intro db email phone purpose now1 now2 u o hsub hpurp hc hfind hotp hexp
    have hreq : truthy (some o.code) = true := by
      simp [truthy, hc]
    have hself : ((some o.code : Option String) != some o.code) = false := by
      simp
    have h1 := verifyOtp_user_found db email phone (some o.code) purpose now1 u o
      hreq hsub hpurp hfind hotp
    rw [if_neg hexp, hself] at h1
    simp only [Bool.false_eq_true, if_false] at h1
    refine ⟨by rw [h1], ?_⟩
    have hstate : (verifyOtp db email phone (some o.code) purpose now1).2 =
        { db with users := saveUser db.users (verifiedUpdate u email phone purpose) } := by
      rw [h1]
    rw [hstate]
    have hq : userQuery email phone (verifiedUpdate u email phone purpose) = true := by
      have := List.find?_some hfind
      simpa [userQuery, verifiedUpdate] using this
    have hfind2 : (saveUser db.users (verifiedUpdate u email phone purpose)).find?
        (userQuery email phone) = some (verifiedUpdate u email phone purpose) :=
      find?_saveUser_self (userQuery email phone) db.users u
        (verifiedUpdate u email phone purpose) hfind rfl hq
    have h2 := verifyOtp_user_noslot
      { db with users := saveUser db.users (verifiedUpdate u email phone purpose) }
      email phone (some o.code) purpose now2 (verifiedUpdate u email phone purpose)
      hreq hsub hpurp hfind2 rfl
    rw [h2]

/-- C4, witness: both shapes at concrete states — a standalone record for
`b@x.com` and an embedded slot for `a@x.com` each validate OK once and
return NOT_FOUND on the identical second validation. -/
theorem c4_single_use_witness :
    ((verifyOtp ⟨[], [⟨7, some "b@x.com", none, "123456", "application", 1000, false⟩], 8⟩
        (some "b@x.com") none (some "123456") (some "application") 500).1 =
      VerifyRes.okApp (if truthy (some "b@x.com") then some "b@x.com" else none)
        (if truthy (none : Option String) then none else none) ∧
    (verifyOtp (verifyOtp ⟨[], [⟨7, some "b@x.com", none, "123456", "application", 1000, false⟩], 8⟩
          (some "b@x.com") none (some "123456") (some "application") 500).2
        (some "b@x.com") none (some "123456") (some "application") 600).1 =
      VerifyRes.notFound) ∧
    ((verifyOtp ⟨[⟨1, "a@x.com", "111", "pw", some ⟨"654321", 1000, "verification"⟩,
          false, false⟩], [], 0⟩
        (some "a@x.com") none (some "654321") (some "email") 500).1 =
      VerifyRes.okUser (verifiedUpdate ⟨1, "a@x.com", "111", "pw",
        some ⟨"654321", 1000, "verification"⟩, false, false⟩
        (some "a@x.com") none (some "email")) ∧
    (verifyOtp (verifyOtp ⟨[⟨1, "a@x.com", "111", "pw",
          some ⟨"654321", 1000, "verification"⟩, false, false⟩], [], 0⟩
          (some "a@x.com") none (some "654321") (some "email") 500).2
        (some "a@x.com") none (some "654321") (some "email") 600).1 =
      VerifyRes.notFound) :=
  ⟨c4_single_use.1 ⟨[], [⟨7, some "b@x.com", none, "123456", "application", 1000, false⟩], 8⟩
      (some "b@x.com") none 500 600
      ⟨7, some "b@x.com", none, "123456", "application", 1000, false⟩
      (by decide) (by decide) (by decide) (by decide) (by decide),
    c4_single_use.2 ⟨[⟨1, "a@x.com", "111", "pw", some ⟨"654321", 1000, "verification"⟩,
        false, false⟩], [], 0⟩
      (some "a@x.com") none (some "email") 500 600
      ⟨1, "a@x.com", "111", "pw", some ⟨"654321", 1000, "verification"⟩, false, false⟩
      ⟨"654321", 1000, "verification"⟩
      (by decide) (by decide) (by decide) (by decide) (by decide) (by decide)⟩

/-- C5: failed validation attempts mutate state only in one case. A
standalone record found expired is deleted (by id) and nothing else changes;
an embedded expired slot is left entirely uncleared; a MISMATCH leaves both
shapes unchanged, and — the state being unchanged — a retry with the correct
code before expiry succeeds. -/
theorem c5_failure_frame :
    (∀ (db : DB) (email phone otpStr : Option String) (now : Nat) (r : OTPRecord),
      truthy otpStr = true → (!truthy email && !truthy phone) = false →
      db.otps.find? (otpAppQuery email phone) = some r →
      r.expiresAt < now →
      verifyOtp db email phone otpStr (some "application") now =
        (VerifyRes.expired,
          { db with otps := db.otps.eraseP (fun x => x.id == r.id) })) ∧
    (∀ (db : DB) (email phone otpStr purpose : Option String) (now : Nat)
        (u : UserRec) (o : EmbeddedOTP),
      truthy otpStr = true → (!truthy email && !truthy phone) = false →
      (purpose == some "application") = false →
      db.users.find? (userQuery email phone) = some u → u.otp = some o →
      o.expiresAt < now →
      verifyOtp db email phone otpStr purpose now = (VerifyRes.expired, db)) ∧
    (∀ (db : DB) (email phone otpStr : Option String) (now : Nat) (r : OTPRecord),
      truthy otpStr = true → (!truthy email && !truthy phone) = false →
      db.otps.find? (otpAppQuery email phone) = some r →
      ¬ r.expiresAt < now → (otpStr != some r.code) = true →
      verifyOtp db email phone otpStr (some "application") now =
        (VerifyRes.mismatch, db) ∧
      (∀ now2 : Nat, ¬ r.expiresAt < now2 → r.code ≠ "" →
        (verifyOtp db email phone (some r.code) (some "application") now2).1 =
          VerifyRes.okApp (if truthy email then email else none)
            (if truthy phone then phone else none))) ∧
    (∀ (db : DB) (email phone otpStr purpose : Option String) (now : Nat)
        (u : UserRec) (o : EmbeddedOTP),
      truthy otpStr = true → (!truthy email && !truthy phone) = false →
      (purpose == some "application") = false →
      db.users.find? (userQuery email phone) = some u → u.otp = some o →
      ¬ o.expiresAt < now → (otpStr != some o.code) = true →
      verifyOtp db email phone otpStr purpose now = (VerifyRes.mismatch, db) ∧
      (∀ now2 : Nat, ¬ o.expiresAt < now2 → o.code ≠ "" →
        (verifyOtp db email phone (some o.code) purpose now2).1 =
          VerifyRes.okUser (verifiedUpdate u email phone purpose))) := by
  refine ⟨?_, ?_, ?_, ?_⟩
  · intro db email phone otpStr now r hreq hsub hfind hexp
    rw [verifyOtp_app_found db email phone otpStr now r hreq hsub hfind,
      if_pos hexp]
  · intro db email phone otpStr purpose now u o hreq hsub hpurp hfind hotp hexp
    rw [verifyOtp_user_found db email phone otpStr purpose now u o
      hreq hsub hpurp hfind hotp, if_pos hexp]
  · intro db email phone otpStr now r hreq hsub hfind hexp hne
    constructor
    · rw [verifyOtp_app_found db email phone otpStr now r hreq hsub hfind,
        if_neg hexp, hne]
      simp
    · intro now2 hexp2 hc
      have hreq2 : truthy (some r.code) = true := by
        simp [truthy, hc]
      have hself : ((some r.code : Option String) != some r.code) = false := by
        simp
      rw [verifyOtp_app_found db email phone (some r.code) now2 r hreq2 hsub hfind,
        if_neg hexp2, hself]
      simp
  · intro db email phone otpStr purpose now u o hreq hsub hpurp hfind hotp hexp hne
    constructor
    · rw [verifyOtp_user_found db email phone otpStr purpose now u o
        hreq hsub hpurp hfind hotp, if_neg hexp, hne]
      simp
    · intro now2 hexp2 hc
      have hreq2 : truthy (some o.code) = true := by
        simp [truthy, hc]
      have hself : ((some o.code : Option String) != some o.code) = false := by
        simp
      rw [verifyOtp_user_found db email phone (some o.code) purpose now2 u o
        hreq2 hsub hpurp hfind hotp, if_neg hexp2, hself]
      simp

/-- C5, witness: the four frame facts at concrete states — expired
standalone record deleted, expired embedded slot untouched, mismatches
leaving both states unchanged with the correct-code retry succeeding. -/
theorem c5_failure_frame_witness :
    verifyOtp ⟨[], [⟨7, some "b@x.com", none, "123456", "application", 1000, false⟩], 8⟩
        (some "b@x.com") none (some "123456") (some "application") 2000 =
      (VerifyRes.expired,
        ⟨[], ([⟨7, some "b@x.com", none, "123456", "application", 1000,
          false⟩] : List OTPRecord).eraseP (fun x => x.id == 7), 8⟩) ∧
    verifyOtp ⟨[⟨1, "a@x.com", "111", "pw", some ⟨"654321", 1000, "verification"⟩,
          false, false⟩], [], 0⟩
        (some "a@x.com") none (some "654321") (some "email") 2000 =
      (VerifyRes.expired,
        ⟨[⟨1, "a@x.com", "111", "pw", some ⟨"654321", 1000, "verification"⟩,
          false, false⟩], [], 0⟩) ∧
    verifyOtp ⟨[], [⟨7, some "b@x.com", none, "123456", "application", 1000, false⟩], 8⟩
        (some "b@x.com") none (some "999999") (some "application") 500 =
      (VerifyRes.mismatch,
        ⟨[], [⟨7, some "b@x.com", none, "123456", "application", 1000, false⟩], 8⟩) ∧
    (verifyOtp ⟨[], [⟨7, some "b@x.com", none, "123456", "application", 1000, false⟩], 8⟩
        (some "b@x.com") none (some "123456") (some "application") 600).1 =
      VerifyRes.okApp (if truthy (some "b@x.com") then some "b@x.com" else none)
        (if truthy (none : Option String) then none else none) ∧
    verifyOtp ⟨[⟨1, "a@x.com", "111", "pw", some ⟨"654321", 1000, "verification"⟩,
          false, false⟩], [], 0⟩
        (some "a@x.com") none (some "999999") (some "email") 500 =
      (VerifyRes.mismatch,
        ⟨[⟨1, "a@x.com", "111", "pw", some ⟨"654321", 1000, "verification"⟩,
          false, false⟩], [], 0⟩) ∧
    (verifyOtp ⟨[⟨1, "a@x.com", "111", "pw", some ⟨"654321", 1000, "verification"⟩,
          false, false⟩], [], 0⟩
        (some "a@x.com") none (some "654321") (some "email") 600).1 =
      VerifyRes.okUser (verifiedUpdate ⟨1, "a@x.com", "111", "pw",
        some ⟨"654321", 1000, "verification"⟩, false, false⟩
        (some "a@x.com") none (some "email")) :=
  ⟨c5_failure_frame.1 ⟨[], [⟨7, some "b@x.com", none, "123456", "application", 1000,
        false⟩], 8⟩
      (some "b@x.com") none (some "123456") 2000
      ⟨7, some "b@x.com", none, "123456", "application", 1000, false⟩
      (by decide) (by decide) (by decide) (by decide),
    c5_failure_frame.2.1 ⟨[⟨1, "a@x.com", "111", "pw",
        some ⟨"654321", 1000, "verification"⟩, false, false⟩], [], 0⟩
      (some "a@x.com") none (some "654321") (some "email") 2000
      ⟨1, "a@x.com", "111", "pw", some ⟨"654321", 1000, "verification"⟩, false, false⟩
      ⟨"654321", 1000, "verification"⟩
      (by decide) (by decide) (by decide) (by decide) (by decide) (by decide),
    (c5_failure_frame.2.2.1 ⟨[], [⟨7, some "b@x.com", none, "123456", "application",
        1000, false⟩], 8⟩
      (some "b@x.com") none (some "999999") 500
      ⟨7, some "b@x.com", none, "123456", "application", 1000, false⟩
      (by decide) (by decide) (by decide) (by decide) (by decide)).1,
    (c5_failure_frame.2.2.1 ⟨[], [⟨7, some "b@x.com", none, "123456", "application",
        1000, false⟩], 8⟩
      (some "b@x.com") none (some "999999") 500
      ⟨7, some "b@x.com", none, "123456", "application", 1000, false⟩
      (by decide) (by decide) (by decide) (by decide) (by decide)).2 600
      (by decide) (by decide),
    (c5_failure_frame.2.2.2 ⟨[⟨1, "a@x.com", "111", "pw",
        some ⟨"654321", 1000, "verification"⟩, false, false⟩], [], 0⟩
      (some "a@x.com") none (some "999999") (some "email") 500
      ⟨1, "a@x.com", "111", "pw", some ⟨"654321", 1000, "verification"⟩, false, false⟩
      ⟨"654321", 1000, "verification"⟩
      (by decide) (by decide) (by decide) (by decide) (by decide) (by decide)
      (by decide)).1,
    (c5_failure_frame.2.2.2 ⟨[⟨1, "a@x.com", "111", "pw",
        some ⟨"654321", 1000, "verification"⟩, false, false⟩], [], 0⟩
      (some "a@x.com") none (some "999999") (some "email") 500
      ⟨1, "a@x.com", "111", "pw", some ⟨"654321", 1000, "verification"⟩, false, false⟩
      ⟨"654321", 1000, "verification"⟩
      (by decide) (by decide) (by decide) (by decide) (by decide) (by decide)
      (by decide)).2 600 (by decide) (by decide)⟩

/-- C7: every OTP stored by any of the three issue flows (forgot-password,
send-otp application, send-otp user-based) carries
`expiresAt = issuance time + otpTtlMs` with `otpTtlMs` equal to ten minutes
in milliseconds, and every successful send-otp response reports
`otpExpiresIn = 600` seconds. -/
theorem c7_expiry_ttl (db : DB) (email phone purpose : Option String)
    (now : Nat) (code : String) (isProd emailOk : Bool) :
    (∀ u2 ∈ (forgotPassword db email now code emailOk).2.users,
        u2 ∈ db.users ∨
          u2.otp = some ⟨code, now + otpTtlMs, "password_reset"⟩) ∧
    (∀ u2 ∈ (sendOtp db email phone purpose now code isProd emailOk).2.users,
        u2 ∈ db.users ∨
          u2.otp = some ⟨code, now + otpTtlMs, orDefault purpose "verification"⟩) ∧
    (∀ r ∈ (sendOtp db email phone purpose now code isProd emailOk).2.otps,
        r ∈ db.otps ∨ r.expiresAt = now + otpTtlMs) ∧
    (∀ (n : Nat) (d : Option String),
      (sendOtp db email phone purpose now code isProd emailOk).1 =
        SendOtpRes.ok n d → n = 600) ∧
    otpTtlMs = 10 * 60 * 1000 := by
  refine ⟨?_, ?_, ?_, ?_, rfl⟩
  · intro u2 hmem
    simp only [forgotPassword] at hmem
    repeat' split at hmem
    all_goals
      first
        | exact Or.inl (by simpa using hmem)
        | (rcases mem_saveUser (by simpa using hmem) with h | h
           · exact Or.inl h
           · rw [h]
             exact Or.inr rfl)
  · intro u2 hmem
    simp only [sendOtp] at hmem
    repeat' split at hmem
    all_goals
      first
        | exact Or.inl (by simpa using hmem)
        | (rcases mem_saveUser (by simpa using hmem) with h | h
           · exact Or.inl h
           · rw [h]
             exact Or.inr rfl)
  · intro r hmem
    simp only [sendOtp] at hmem
    repeat' split at hmem
    all_goals
      first
        | exact Or.inl (by simpa using hmem)
        | (rcases List.mem_append.mp hmem with h | h
           · exact Or.inl (List.mem_filter.mp h).1
           · rw [List.mem_singleton.mp h]
             exact Or.inr rfl)
  · intro n d hres
    simp only [sendOtp] at hres
    repeat' split at hres
    all_goals
      first
        | (cases hres
           rfl)
        | (cases hres)

/-- C7, witness: issuing a login OTP at time 5000 for an existing user
stores a slot expiring at 5000 + otpTtlMs; the saved user is a member of the
resulting state and the theorem classifies it as carrying exactly that
expiry. -/
theorem c7_expiry_ttl_witness :
    (⟨1, "a@x.com", "111", "pw", some ⟨"222222", 605000, "login"⟩, false, false⟩ : UserRec) ∈
      (sendOtp ⟨[⟨1, "a@x.com", "111", "pw", none, false, false⟩], [], 0⟩
        (some "a@x.com") none (some "login") 5000 "222222" false true).2.users ∧
    ((⟨1, "a@x.com", "111", "pw", some ⟨"222222", 605000, "login"⟩, false, false⟩ : UserRec) ∈
        [(⟨1, "a@x.com", "111", "pw", none, false, false⟩ : UserRec)] ∨
      (⟨1, "a@x.com", "111", "pw", some ⟨"222222", 605000, "login"⟩, false, false⟩ : UserRec).otp =
        some ⟨"222222", 5000 + otpTtlMs, orDefault (some "login") "verification"⟩) :=
  ⟨by decide,
    (c7_expiry_ttl ⟨[⟨1, "a@x.com", "111", "pw", none, false, false⟩], [], 0⟩
        (some "a@x.com") none (some "login") 5000 "222222" false true).2.1
      ⟨1, "a@x.com", "111", "pw", some ⟨"222222", 605000, "login"⟩, false, false⟩
      (by decide)⟩

/-- C9: a send-otp request with purpose `login` whose subject — email or
phone — matches no user answers success with `otpExpiresIn = 600` (after the
email delivery attempt when an email was supplied; the phone-only path makes
no delivery attempt, so any delivery outcome gives the same answer), yet
changes nothing in either storage shape, so every subsequent verify-otp for
that subject — under any purpose, application or not — returns NOT_FOUND. -/
theorem c9_login_unknown_subject (db : DB) (subj : String) (hs : subj ≠ "")
    (now : Nat) (code : String) (isProd : Bool) :
    (db.users.find? (userQuery (some subj) none) = none →
      db.otps.find? (otpAppQuery (some subj) none) = none →
      sendOtp db (some subj) none (some "login") now code isProd true =
        (SendOtpRes.ok 600 (if isProd then none else some code), db) ∧
      (∀ (p c : Option String) (now2 : Nat), truthy c = true →
        (verifyOtp db (some subj) none c p now2).1 = VerifyRes.notFound)) ∧
    (∀ emailOk : Bool,
      db.users.find? (userQuery none (some subj)) = none →
      db.otps.find? (otpAppQuery none (some subj)) = none →
      sendOtp db none (some subj) (some "login") now code isProd emailOk =
        (SendOtpRes.ok 600 (if isProd then none else some code), db) ∧
      (∀ (p c : Option String) (now2 : Nat), truthy c = true →
        (verifyOtp db none (some subj) c p now2).1 = VerifyRes.notFound)) := by
  have htr : truthy (some subj) = true := by
    simp [truthy, hs]
  constructor
  · intro hnouser hnootp
    constructor
    · unfold sendOtp
      rw [htr, hnouser]
      simp
    · intro p c now2 hc
      have hsub : (!truthy (some subj) && !truthy (none : Option String)) = false := by
        rw [htr]
        simp
      by_cases hp : (p == some "application") = true
      · have hpe : p = some "application" := by
          simpa using hp
        rw [hpe, verifyOtp_app_notFound db (some subj) none c now2 hc hsub hnootp]
      · have hpf : (p == some "application") = false := by
          simpa using hp
        rw [verifyOtp_user_none db (some subj) none c p now2 hc hsub hpf hnouser]
  · intro emailOk hnouser hnootp
    constructor
    · unfold sendOtp
      rw [htr, hnouser]
      simp [truthy]
    · intro p c now2 hc
      have hsub : (!truthy (none : Option String) && !truthy (some subj)) = false := by
        rw [htr]
        simp
      by_cases hp : (p == some "application") = true
      · have hpe : p = some "application" := by
          simpa using hp
        rw [hpe, verifyOtp_app_notFound db none (some subj) c now2 hc hsub hnootp]
      · have hpf : (p == some "application") = false := by
          simpa using hp
        rw [verifyOtp_user_none db none (some subj) c p now2 hc hsub hpf hnouser]

/-- C9, witness: against a store holding one unrelated user and no
standalone records, a login send-otp for the unknown subject `31337` —
supplied as an email, and as a phone with the delivery outcome failing —
answers 600 seconds without persisting anything, and the follow-up
verify-otp is NOT_FOUND on both subject kinds. -/
theorem c9_login_unknown_subject_witness :
    (sendOtp ⟨[⟨1, "z@x.com", "999", "pw", none, false, false⟩], [], 0⟩
        (some "31337") none (some "login") 7 "333333" false true =
      (SendOtpRes.ok 600 (if false then none else some "333333"),
        ⟨[⟨1, "z@x.com", "999", "pw", none, false, false⟩], [], 0⟩) ∧
    (verifyOtp ⟨[⟨1, "z@x.com", "999", "pw", none, false, false⟩], [], 0⟩
        (some "31337") none (some "333333") (some "login") 99).1 =
      VerifyRes.notFound) ∧
    (sendOtp ⟨[⟨1, "z@x.com", "999", "pw", none, false, false⟩], [], 0⟩
        none (some "31337") (some "login") 7 "333333" false false =
      (SendOtpRes.ok 600 (if false then none else some "333333"),
        ⟨[⟨1, "z@x.com", "999", "pw", none, false, false⟩], [], 0⟩) ∧
    (verifyOtp ⟨[⟨1, "z@x.com", "999", "pw", none, false, false⟩], [], 0⟩
        none (some "31337") (some "333333") (some "application") 99).1 =
      VerifyRes.notFound) :=
  ⟨⟨((c9_login_unknown_subject ⟨[⟨1, "z@x.com", "999", "pw", none, false, false⟩], [], 0⟩
        "31337" (by decide) 7 "333333" false).1 (by decide) (by decide)).1,
    ((c9_login_unknown_subject ⟨[⟨1, "z@x.com", "999", "pw", none, false, false⟩], [], 0⟩
        "31337" (by decide) 7 "333333" false).1 (by decide) (by decide)).2
      (some "login") (some "333333") 99 (by decide)⟩,
   ⟨((c9_login_unknown_subject ⟨[⟨1, "z@x.com", "999", "pw", none, false, false⟩], [], 0⟩
        "31337" (by decide) 7 "333333" false).2 false (by decide) (by decide)).1,
    ((c9_login_unknown_subject ⟨[⟨1, "z@x.com", "999", "pw", none, false, false⟩], [], 0⟩
        "31337" (by decide) 7 "333333" false).2 false (by decide) (by decide)).2
      (some "application") (some "333333") 99 (by decide)⟩⟩

/-- C10: reset-password applies the credential replacement and the OTP-slot
clearing through one save of one user record. Every non-OK outcome leaves
the state exactly as it was — neither the password nor the slot is touched —
and the OK outcome replaces the found user by the single record carrying
both the new password and the cleared slot. -/
theorem c10_reset_atomicity (db : DB) (email otpStr npw : Option String)
    (now : Nat) :
    ((resetPassword db email otpStr npw now).1 ≠ ResetRes.ok →
      (resetPassword db email otpStr npw now).2 = db) ∧
    ((resetPassword db email otpStr npw now).1 = ResetRes.ok →
      ∃ u, db.users.find? (userQuery email none) = some u ∧
        (resetPassword db email otpStr npw now).2 =
          { db with users :=
              saveUser db.users { u with password := npw.getD "", otp := none } }) := by
  by_cases hreq : (!truthy email || !truthy otpStr || !truthy npw) = true
  · have hval : resetPassword db email otpStr npw now = (ResetRes.missingFields, db) := by
      unfold resetPassword
      rw [hreq]
      simp
    rw [hval]
    exact ⟨fun _ => rfl, fun h => absurd h (by simp)⟩
  · have hreqf : (!truthy email || !truthy otpStr || !truthy npw) = false := by
      simpa using hreq
    cases hfe : db.users.find? (userQuery email none) with
    | none =>
      have hval : resetPassword db email otpStr npw now = (ResetRes.invalidOtpOrUser, db) := by
        unfold resetPassword
        rw [hreqf, hfe]
        simp
      rw [hval]
      exact ⟨fun _ => rfl, fun h => absurd h (by simp)⟩
    | some u =>
      cases hotp : u.otp with
      | none =>
        have hval : resetPassword db email otpStr npw now = (ResetRes.invalidOtpOrUser, db) := by
          unfold resetPassword
          rw [hreqf, hfe]
          simp [hotp]
        rw [hval]
        exact ⟨fun _ => rfl, fun h => absurd h (by simp)⟩
      | some o =>
        have heq := resetPassword_found db email otpStr npw now u o hreqf hfe hotp
        by_cases hmatch : (o.purpose != "password_reset" || some o.code != otpStr) = true
        · rw [if_pos hmatch] at heq
          rw [heq]
          exact ⟨fun _ => rfl, fun h => absurd h (by simp)⟩
        · rw [if_neg hmatch] at heq
          by_cases hexp : o.expiresAt < now
          · rw [if_pos hexp] at heq
            rw [heq]
            exact ⟨fun _ => rfl, fun h => absurd h (by simp)⟩
          · rw [if_neg hexp] at heq
            rw [heq]
            exact ⟨fun h => absurd rfl h, fun _ => ⟨u, rfl, rfl⟩⟩

/-- C10, witness: a failing call (wrong code) leaves the state unchanged,
and a succeeding call replaces the user's password and clears the slot via
the characterized single save. -/
theorem c10_reset_atomicity_witness :
    ((resetPassword ⟨[⟨1, "a@x.com", "111", "pw",
          some ⟨"123456", 99999, "password_reset"⟩, false, false⟩], [], 0⟩
        (some "a@x.com") (some "999999") (some "npw") 50).1 ≠ ResetRes.ok →
      (resetPassword ⟨[⟨1, "a@x.com", "111", "pw",
          some ⟨"123456", 99999, "password_reset"⟩, false, false⟩], [], 0⟩
        (some "a@x.com") (some "999999") (some "npw") 50).2 =
      ⟨[⟨1, "a@x.com", "111", "pw",
          some ⟨"123456", 99999, "password_reset"⟩, false, false⟩], [], 0⟩) ∧
    ((resetPassword ⟨[⟨1, "a@x.com", "111", "pw",
          some ⟨"123456", 99999, "password_reset"⟩, false, false⟩], [], 0⟩
        (some "a@x.com") (some "999999") (some "npw") 50).1 = ResetRes.ok →
      ∃ u, ([⟨1, "a@x.com", "111", "pw",
          some ⟨"123456", 99999, "password_reset"⟩, false, false⟩] : List UserRec).find?
            (userQuery (some "a@x.com") none) = some u ∧
        (resetPassword ⟨[⟨1, "a@x.com", "111", "pw",
            some ⟨"123456", 99999, "password_reset"⟩, false, false⟩], [], 0⟩
          (some "a@x.com") (some "999999") (some "npw") 50).2 =
          ⟨saveUser [⟨1, "a@x.com", "111", "pw",
              some ⟨"123456", 99999, "password_reset"⟩, false, false⟩]
            { u with password := (some "npw").getD "", otp := none }, [], 0⟩) :=
  c10_reset_atomicity ⟨[⟨1, "a@x.com", "111", "pw",
      some ⟨"123456", 99999, "password_reset"⟩, false, false⟩], [], 0⟩
    (some "a@x.com") (some "999999") (some "npw") 50
